import Mathlib

/-!
Verification of the VivyTerm bridging header
`src/VivyTerm/ghostty-bridging-header.h`.

The artifact is a 21-line C/Objective-C header.  We embed it shallowly as
the literal list of its source lines and define, over the character lists
of those lines, the classification of each line (comment, blank,
preprocessor directive) and the semantics of the preprocessor directives
that occur in it: the include guard, the object-like `#define`, and the
three inclusion directives.  All definitions are executable, so closed
facts about the file evaluate by `decide`.
-/

namespace VVTerm

/-- The 21 lines of `src/VivyTerm/ghostty-bridging-header.h`, verbatim. -/
def fileLines : List String :=
  [ "//"
  , "//  ghostty-bridging-header.h"
  , "//  VivyTerm"
  , "//"
  , "//  Bridging header to expose C APIs to Swift"
  , "//"
  , ""
  , "#ifndef ghostty_bridging_header_h"
  , "#define ghostty_bridging_header_h"
  , ""
  , "// Import the main Ghostty C API"
  , "// Note: ghostty.h already includes all necessary definitions"
  , "// Do NOT include ghostty/vt.h as it causes duplicate enum definitions"
  , "#import \"../Vendor/libghostty/include/ghostty.h\""
  , ""
  , "// Import libssh2 for SSH connections"
  , "// Uses header search paths configured in Xcode build settings"
  , "#include <libssh2.h>"
  , "#include <libssh2_sftp.h>"
  , ""
  , "#endif /* ghostty_bridging_header_h */" ]

/-- The include-guard identifier of the header. -/
def guardName : String := "ghostty_bridging_header_h"

/-- Path of the ghostty header as written in the file. -/
def ghosttyPath : String := "../Vendor/libghostty/include/ghostty.h"

/-- Strip leading and trailing whitespace from a character list. -/
def trimChars (cs : List Char) : List Char :=
  ((cs.dropWhile Char.isWhitespace).reverse.dropWhile Char.isWhitespace).reverse

/-- A line is blank when it holds only whitespace. -/
def isBlank (s : String) : Bool := (trimChars s.data).isEmpty

/-- A line is a comment when, after stripping whitespace, it starts with `//`. -/
def isComment (s : String) : Bool :=
  List.isPrefixOf "//".data (trimChars s.data)

/-- A line is a preprocessor directive when it starts with `#`. -/
def isDirective (s : String) : Bool :=
  List.isPrefixOf "#".data (trimChars s.data)

/-- The directive keyword: the alphabetic word right after the `#`. -/
def directiveName (s : String) : String :=
  ⟨((trimChars s.data).drop 1).takeWhile Char.isAlpha⟩

/-- The text after the directive keyword, trimmed. -/
def directiveArg (s : String) : String :=
  ⟨trimChars (((trimChars s.data).drop 1).dropWhile Char.isAlpha)⟩

/-- Strip the `<...>` or `"..."` delimiters around an inclusion target. -/
def stripDelims (a : String) : String :=
  match a.data with
  | '<' :: rest => ⟨rest.takeWhile (fun c => c != '>')⟩
  | '"' :: rest => ⟨rest.takeWhile (fun c => c != '"')⟩
  | _ => a

/-- A line that brings in another header: a `#include` or `#import` directive. -/
def isIncludeLine (s : String) : Bool :=
  isDirective s && (directiveName s == "include" || directiveName s == "import")

/-- The header named by an inclusion directive. -/
def includeTarget (s : String) : String := stripDelims (directiveArg s)

/-- All headers directly included by a list of lines, in order. -/
def includedHeaders (ls : List String) : List String :=
  (ls.filter isIncludeLine).map includeTarget

/-- Name introduced by a `#define` line: the first word of its argument. -/
def defNameOf (s : String) : String :=
  ⟨(directiveArg s).data.takeWhile (fun c => c != ' ')⟩

/-- Replacement token sequence of a `#define` line: what follows the name. -/
def defBodyOf (s : String) : String :=
  ⟨trimChars ((directiveArg s).data.dropWhile (fun c => c != ' '))⟩

/-- All `(name, body)` pairs defined by `#define` lines of a file. -/
def definesOf (ls : List String) : List (String × String) :=
  (ls.filter (fun s => isDirective s && directiveName s == "define")).map
    (fun s => (defNameOf s, defBodyOf s))

/-- Guard machinery lines: the conditional and define directives of an
include guard (`#ifndef`, `#define`, `#endif`). -/
def isGuardLine (s : String) : Bool :=
  isDirective s &&
    (directiveName s == "ifndef" || directiveName s == "define" ||
      directiveName s == "endif")

/-- The preprocessor directives of a file that are not guard lines. -/
def nonGuardDirectives (ls : List String) : List String :=
  ls.filter (fun s => isDirective s && !(isGuardLine s))

/-- Lines that are neither comments, nor blank, nor preprocessor
directives: the only lines that could declare a C entity or hold an
executable statement. -/
def declarationLines (ls : List String) : List String :=
  ls.filter (fun s => !(isComment s || isBlank s || isDirective s))

/-- The kind of a source line, as the C preprocessor sees it. -/
inductive LineKind where
  | commentK : LineKind
  | blankK : LineKind
  | ifndefK : String → LineKind
  | defineK : String → String → LineKind
  | includeK : String → LineKind
  | importK : String → LineKind
  | endifK : LineKind
  | otherK : String → LineKind
  deriving DecidableEq, Repr

/-- Classify a source line by parsing it. -/
def lineKind (s : String) : LineKind :=
  if isBlank s then .blankK
  else if isComment s then .commentK
  else if isDirective s then
    if directiveName s == "ifndef" then .ifndefK (directiveArg s)
    else if directiveName s == "define" then .defineK (defNameOf s) (defBodyOf s)
    else if directiveName s == "endif" then .endifK
    else if directiveName s == "include" then .includeK (includeTarget s)
    else if directiveName s == "import" then .importK (includeTarget s)
    else .otherK s
  else .otherK s

/-- State of the preprocessor while a translation unit is built: the
macro names defined so far and the headers whose declarations have been
brought into the unit, in order. -/
structure PPState where
  defined : List String
  emitted : List String
  deriving DecidableEq, Repr

/-- One preprocessor step.  The `Nat` component counts the depth of
conditional regions whose condition failed; lines inside such a region
are skipped.  `#ifndef` opens a region that is skipped exactly when the
tested name is already defined; `#endif` closes the innermost region;
`#define` records a macro name; `#include` and `#import` emit the
target header into the unit. -/
def ppLine : PPState × Nat → LineKind → PPState × Nat
  | (st, skip), .ifndefK n =>
      if skip > 0 then (st, skip + 1)
      else if st.defined.contains n then (st, 1) else (st, 0)
  | (st, skip), .defineK n _ =>
      if skip > 0 then (st, skip) else ({ st with defined := st.defined ++ [n] }, 0)
  | (st, skip), .includeK t =>
      if skip > 0 then (st, skip) else ({ st with emitted := st.emitted ++ [t] }, 0)
  | (st, skip), .importK t =>
      if skip > 0 then (st, skip) else ({ st with emitted := st.emitted ++ [t] }, 0)
  | (st, skip), .endifK => (st, skip - 1)
  | (st, skip), _ => (st, skip)

/-- Run the preprocessor over a classified line list. -/
def ppRun (st : PPState) (ks : List LineKind) : PPState :=
  (ks.foldl ppLine (st, 0)).1

/-- Process a file given as raw source lines. -/
def processFile (st : PPState) (ls : List String) : PPState :=
  ppRun st (ls.map lineKind)

/-- The classified lines of the bridging header. -/
def fileKinds : List LineKind :=
  [ .commentK, .commentK, .commentK, .commentK, .commentK, .commentK
  , .blankK
  , .ifndefK guardName
  , .defineK guardName ""
  , .blankK
  , .commentK, .commentK, .commentK
  , .importK ghosttyPath
  , .blankK
  , .commentK, .commentK
  , .includeK "libssh2.h"
  , .includeK "libssh2_sftp.h"
  , .blankK
  , .endifK ]

/-- The effect of one pass of the preprocessor over the bridging header:
if the guard is already defined nothing happens, otherwise the guard is
defined and the three headers are emitted. -/
def guardUpdate (st : PPState) : PPState :=
  if st.defined.contains guardName then st
  else ⟨st.defined ++ [guardName],
        st.emitted ++ [ghosttyPath, "libssh2.h", "libssh2_sftp.h"]⟩

lemma fileLines_kinds : fileLines.map lineKind = fileKinds := by decide

lemma fold_fileKinds (st : PPState) :
    fileKinds.foldl ppLine (st, 0) = (guardUpdate st, 0) := by
  by_cases h : guardName ∈ st.defined
  · simp [fileKinds, ppLine, guardUpdate, h]
  · simp [fileKinds, ppLine, guardUpdate, h]

lemma processFile_fileLines (st : PPState) :
    processFile st fileLines = guardUpdate st := by
  unfold processFile ppRun
  rw [fileLines_kinds, fold_fileKinds]

/-- A line the C compiler never executes: a comment, a blank line, or a
preprocessor directive. -/
def isInert (s : String) : Bool := isComment s || isBlank s || isDirective s

lemma fileLines_inert : fileLines.all isInert = true := by decide

/-- Textual concatenation of `n` copies of the bridging header, as a
translation unit that includes the header `n` times would read. -/
def repeatFile : Nat → List String
  | 0 => []
  | n + 1 => fileLines ++ repeatFile n

lemma guardUpdate_idem (st : PPState) :
    guardUpdate (guardUpdate st) = guardUpdate st := by
  by_cases h : guardName ∈ st.defined
  · simp [guardUpdate, h]
  · simp [guardUpdate, h]

lemma processFile_repeat (m : Nat) :
    ∀ st : PPState, processFile st (repeatFile (m + 1)) = guardUpdate st := by
  induction m with
  | zero =>
      intro st
      show processFile st (fileLines ++ []) = guardUpdate st
      rw [List.append_nil]
      exact processFile_fileLines st
  | succ k ih =>
      intro st
      show processFile st (fileLines ++ repeatFile (k + 1)) = guardUpdate st
      have hsplit : processFile st (fileLines ++ repeatFile (k + 1)) =
          processFile (guardUpdate st) (repeatFile (k + 1)) := by
        unfold processFile ppRun
        rw [List.map_append, List.foldl_append, fileLines_kinds, fold_fileKinds]
      rw [hsplit, ih (guardUpdate st), guardUpdate_idem]

/-- The symbols a translation unit can see through the headers emitted so
far, given the environment `env` mapping each header to the symbols it
declares. -/
def availableSymbols (env : String → List String) (st : PPState) : List String :=
  (st.emitted.map env).flatten

/-- One execution step of a line under an uninterpreted effect function:
comments, blank lines and preprocessor directives perform no state
transition; any other line would act through `effect`. -/
def stepLine {α : Type} (effect : String → α → α) (a : α) (line : String) : α :=
  if isInert line then a else effect line a

/-- Run a file as a program over an arbitrary state type. -/
def runFile {α : Type} (effect : String → α → α) (ls : List String) (a : α) : α :=
  ls.foldl (stepLine effect) a

/-- Modelled from the spec: the empty program performs no computation and
no state transition. -/
def specEmptyProgram {α : Type} (a : α) : α := a

lemma runFile_inert {α : Type} (effect : String → α → α) (ls : List String)
    (h : ls.all isInert = true) (a : α) : runFile effect ls a = a := by
  induction ls generalizing a with
  | nil => rfl
  | cons x xs ih =>
      rw [List.all_cons, Bool.and_eq_true] at h
      show xs.foldl (stepLine effect) (stepLine effect a x) = a
      rw [show stepLine effect a x = a from by simp [stepLine, h.1]]
      exact ih h.2 a

/-- The error branches a line contributes to a unit, given an
uninterpreted assignment `errOf` of error branches to executable lines:
inert lines contribute none. -/
def errorOpsOfLine (errOf : String → List String) (l : String) : List String :=
  if isInert l then [] else errOf l

/-- All error branches contributed by the lines of a unit. -/
def errorOps (errOf : String → List String) (ls : List String) : List String :=
  (ls.map (errorOpsOfLine errOf)).flatten

lemma errorOps_append (errOf : String → List String) (u v : List String) :
    errorOps errOf (u ++ v) = errorOps errOf u ++ errorOps errOf v := by
  simp [errorOps]

lemma errorOps_inert (errOf : String → List String) (ls : List String)
    (h : ls.all isInert = true) : errorOps errOf ls = [] := by
  induction ls with
  | nil => rfl
  | cons x xs ih =>
      rw [List.all_cons, Bool.and_eq_true] at h
      show errorOpsOfLine errOf x ++ errorOps errOf xs = []
      rw [show errorOpsOfLine errOf x = [] from by simp [errorOpsOfLine, h.1],
        ih h.2]
      rfl

/-- Whether processing a file succeeds in a build configuration: every
header it includes is found on the configured search paths `avail`. -/
def headerResolves (avail : List String) (ls : List String) : Bool :=
  (includedHeaders ls).all (fun t => avail.contains t)

/-- C1: in a unit whose preprocessor state does not yet define the guard,
including the header makes available exactly the symbols declared by
`ghostty.h`, `libssh2.h` and `libssh2_sftp.h` (in the environment `env`
assigning to each header the symbols it declares), and the file itself
adds no surface of its own: it has no declaration lines, and the only
name it defines is the guard. -/
theorem C1_exports_exactly_library_symbols (env : String → List String)
    (st : PPState) (h : guardName ∉ st.defined) :
    availableSymbols env (processFile st fileLines) =
      availableSymbols env st ++
        (env ghosttyPath ++ env "libssh2.h" ++ env "libssh2_sftp.h") ∧
    declarationLines fileLines = [] ∧
    definesOf fileLines = [(guardName, "")] := by
  refine ⟨?_, by decide, by decide⟩
  rw [processFile_fileLines]
  simp [guardUpdate, h, availableSymbols, List.append_assoc]

/-- Witness for C1 at the empty state and the environment mapping each
header to a one-symbol list. -/
theorem C1_exports_exactly_library_symbols_witness :
    guardName ∉ (PPState.mk [] []).defined ∧
    (availableSymbols (fun p => [p]) (processFile ⟨[], []⟩ fileLines) =
      availableSymbols (fun p => [p]) (⟨[], []⟩ : PPState) ++
        ((fun p : String => [p]) ghosttyPath ++ (fun p : String => [p]) "libssh2.h" ++
          (fun p : String => [p]) "libssh2_sftp.h") ∧
    declarationLines fileLines = [] ∧
    definesOf fileLines = [(guardName, "")]) :=
  ⟨by simp, C1_exports_exactly_library_symbols (fun p => [p]) ⟨[], []⟩ (by simp)⟩

/-- C2: the file declares nothing of its own — every line is a comment,
blank, or a preprocessor directive, so the set of entities (functions,
types, protocols) declared directly by this file is empty. -/
theorem C2_declares_no_entities :
    fileLines.all (fun s => isComment s || isBlank s || isDirective s) = true ∧
    declarationLines fileLines = [] := by decide

/-- C3 as stated is false: the non-guard directives of the file are not
two `#include` directives — there are three of them and the first is a
`#import`. -/
theorem C3_two_includes_counterexample :
    ¬ ((nonGuardDirectives fileLines).length = 2 ∧
       (nonGuardDirectives fileLines).all
         (fun s => directiveName s == "include") = true) := by decide

/-- C3, amended: every preprocessor directive of the file other than the
include-guard lines is one of exactly three inclusion directives — one
`#import` followed by two `#include`. -/
theorem C3_three_inclusion_directives :
    (nonGuardDirectives fileLines).map directiveName =
      ["import", "include", "include"] ∧
    (nonGuardDirectives fileLines).all isIncludeLine = true := by decide

/-- C4: the file contains no executable logic — run as a program over any
state type, with any interpretation of executable lines, it performs the
identity transition, i.e. it is equivalent to the empty program. -/
theorem C4_equivalent_to_empty_program {α : Type} (effect : String → α → α)
    (a : α) : runFile effect fileLines a = specEmptyProgram a :=
  runFile_inert effect fileLines fileLines_inert a

/-- C5: the header introduces no operation that can fail: appending it to
any translation unit, under any assignment of error branches to
executable lines, leaves the unit's error branches unchanged. -/
theorem C5_adds_no_error_branch (errOf : String → List String)
    (unit : List String) :
    errorOps errOf (unit ++ fileLines) = errorOps errOf unit := by
  rw [errorOps_append, errorOps_inert errOf fileLines fileLines_inert,
    List.append_nil]

/-- C6: the file is exactly 21 lines long and purely declarative: every
line is a comment, blank, or a preprocessor directive (which covers the
header imports), and no line holds an executable statement. -/
theorem C6_twentyone_declarative_lines :
    fileLines.length = 21 ∧
    fileLines.all isInert = true ∧
    declarationLines fileLines = [] := by decide

/-- C7: in a build configuration whose search paths provide the ghostty
header and both libssh2 headers, processing the header succeeds — every
include resolves — and the symbols reachable through it are exactly the
symbols those three library headers provide. -/
theorem C7_resolves_in_configured_build (avail : List String)
    (env : String → List String) (h1 : ghosttyPath ∈ avail)
    (h2 : "libssh2.h" ∈ avail) (h3 : "libssh2_sftp.h" ∈ avail) :
    headerResolves avail fileLines = true ∧
    availableSymbols env (processFile ⟨[], []⟩ fileLines) =
      env ghosttyPath ++ env "libssh2.h" ++ env "libssh2_sftp.h" := by
  constructor
  · have hinc : includedHeaders fileLines =
        [ghosttyPath, "libssh2.h", "libssh2_sftp.h"] := by decide
    simp [headerResolves, hinc, h1, h2, h3]
  · have hpf : processFile ⟨[], []⟩ fileLines =
        ⟨[guardName], [ghosttyPath, "libssh2.h", "libssh2_sftp.h"]⟩ := by decide
    rw [hpf]
    simp [availableSymbols, List.append_assoc]

/-- Witness for C7: the search-path list holding exactly the three
headers, and the environment mapping each header to a one-symbol list. -/
theorem C7_resolves_in_configured_build_witness :
    ghosttyPath ∈ [ghosttyPath, "libssh2.h", "libssh2_sftp.h"] ∧
    "libssh2.h" ∈ [ghosttyPath, "libssh2.h", "libssh2_sftp.h"] ∧
    "libssh2_sftp.h" ∈ [ghosttyPath, "libssh2.h", "libssh2_sftp.h"] ∧
    (headerResolves [ghosttyPath, "libssh2.h", "libssh2_sftp.h"] fileLines = true ∧
     availableSymbols (fun p => [p]) (processFile ⟨[], []⟩ fileLines) =
       (fun p : String => [p]) ghosttyPath ++ (fun p : String => [p]) "libssh2.h" ++
         (fun p : String => [p]) "libssh2_sftp.h") :=
  ⟨by simp, by simp, by simp,
    C7_resolves_in_configured_build [ghosttyPath, "libssh2.h", "libssh2_sftp.h"]
      (fun p => [p]) (by simp) (by simp) (by simp)⟩

/-- C8: inclusion is idempotent: thanks to the include guard, a unit that
textually includes the header `n ≥ 1` times ends in exactly the state of
a unit that includes it once — the second and later inclusions define
nothing and emit nothing. -/
theorem C8_inclusion_idempotent (st : PPState) (n : Nat) (h : 1 ≤ n) :
    processFile st (repeatFile n) = processFile st fileLines := by
  obtain ⟨m, rfl⟩ : ∃ m, n = m + 1 := ⟨n - 1, by omega⟩
  rw [processFile_repeat m st, processFile_fileLines]

/-- Witness for C8: three inclusions from the empty state equal one. -/
theorem C8_inclusion_idempotent_witness :
    1 ≤ 3 ∧
    processFile ⟨[], []⟩ (repeatFile 3) = processFile ⟨[], []⟩ fileLines :=
  ⟨by decide, C8_inclusion_idempotent ⟨[], []⟩ 3 (by decide)⟩

/-- C9: the headers directly included by the file are exactly
`../Vendor/libghostty/include/ghostty.h`, `libssh2.h` and
`libssh2_sftp.h`; in particular `ghostty/vt.h` is not among them. -/
theorem C9_include_set_exact :
    includedHeaders fileLines =
      ["../Vendor/libghostty/include/ghostty.h", "libssh2.h", "libssh2_sftp.h"] ∧
    (includedHeaders fileLines).contains "ghostty/vt.h" = false := by decide

/-- C10: the only name the file defines is the guard
`ghostty_bridging_header_h`, with an empty replacement sequence; and
preprocessing the file from any state adds at most that one name to the
defined names — nothing else. -/
theorem C10_only_guard_defined (st : PPState) :
    definesOf fileLines = [(guardName, "")] ∧
    ((processFile st fileLines).defined = st.defined ∨
     (processFile st fileLines).defined = st.defined ++ [guardName]) := by
  refine ⟨by decide, ?_⟩
  rw [processFile_fileLines]
  by_cases h : guardName ∈ st.defined
  · left
    simp [guardUpdate, h]
  · right
    simp [guardUpdate, h]

end VVTerm
